import Mathlib

/-! Shallow embedding of the Django model layer of the library-lending
application (`reactlibapp/libraryapi/models.py`), together with theorems
settling the specification's claims about it.

Conventions of the embedding:
* Dates and timestamps are day counts / clock ticks (`Nat`); `datetime.date.today()`
  becomes an explicit `present_day : Nat` argument, `timedelta(weeks=2)` is 14 days.
* Foreign keys are row ids (`Nat`).
* Nullable columns are `Option`; non-nullable columns are plain values.
* `auto_now_add` columns are filled from the clock at row creation and are not
  written by updates; `auto_now` columns are refreshed from the clock on every save.
* Creation of rows for models that declare no validators and no uniqueness
  constraint on the relevant columns is modelled as a total operation in an
  `Except String` error channel that never errs, mirroring the absence of any
  validation in the source.
-/

namespace Reactlib

/-! Identity adapter: `UserProxy`, a proxy of `django.contrib.auth.models.User`. -/

/-- The stored fields of the local `User` row that `UserProxy.check_diff`
reads or writes, plus `password` standing for the remaining columns of the
Django auth user, which the method never touches. -/
structure UserProxy where
  username : String
  email : String
  first_name : String
  last_name : String
  password : String
  deriving Repr, DecidableEq

/-- The external identity payload fields consumed by `UserProxy.check_diff`
(`idinfo` in the source). -/
structure IdInfo where
  name : String
  email : String
  given_name : String
  family_name : String
  deriving Repr, DecidableEq

/-- One step of the loop body in `UserProxy.check_diff`:
`if getattr(self, field) != data[field] and data[field] != "": setattr(...)`. -/
def diffField (stored incoming : String) : String :=
  if stored ≠ incoming ∧ incoming ≠ "" then incoming else stored

/-- Method `UserProxy.check_diff(self, idinfo)` from `models.py`: the loop runs the
same test/assignment over the four recognized columns (`username ← name`,
`email ← email`, `first_name ← given_name`, `last_name ← family_name`);
the columns are distinct attributes, so the loop is the per-field update. -/
def UserProxy.check_diff (self : UserProxy) (idinfo : IdInfo) : UserProxy :=
  { username := diffField self.username idinfo.name
    email := diffField self.email idinfo.email
    first_name := diffField self.first_name idinfo.given_name
    last_name := diffField self.last_name idinfo.family_name
    password := self.password }

/-! Identity adapter: the `GoogleUser` profile model. -/

/-- Row type `GoogleUser`: unique external `google_id`, one-to-one `app_user`
foreign key, and the `appuser_picture` text column. -/
structure GoogleUser where
  google_id : String
  app_user : Nat
  appuser_picture : String
  deriving Repr, DecidableEq

/-- Method `GoogleUser.check_diff(self, idinfo)` from `models.py`: the same
diff-and-update loop over the single-entry dict
`{"appuser_picture": idinfo["picture"]}`. -/
def GoogleUser.check_diff (self : GoogleUser) (picture : String) : GoogleUser :=
  { self with appuser_picture := diffField self.appuser_picture picture }

/-! Catalog: `Author`, `Category`, `Book`. -/

/-- Row type `Author` (inherits the `BaseInfo` audit pair). -/
structure Author where
  name : String
  created_at : Nat
  updated_at : Nat
  deriving Repr, DecidableEq

/-- Row type `Category` (inherits the `BaseInfo` audit pair). -/
structure Category where
  name : String
  created_at : Nat
  updated_at : Nat
  deriving Repr, DecidableEq

/-- Row type `Book`. `quantity` is a Django `IntegerField`, so a (signed) integer;
`author` is many-to-many (a list of `Author` row ids), `category` a foreign key. -/
structure Book where
  title : String
  description : String
  quantity : Int
  edition : String
  publisher : String
  isbn : String
  author : List Nat
  category : Nat
  created_at : Nat
  updated_at : Nat
  deriving Repr, DecidableEq

/-- Method `Book._check_status` from `models.py`; exposed as the (never stored)
`status` property, recomputed from `quantity` on each access. -/
def Book.check_status (self : Book) : String :=
  if self.quantity ≤ 0 then "Not Available" else "Available"

/-! Engagement: `Ratings`, `Interest`. -/

/-- Row type `Ratings`: free text `comment`, integer `score`, user/book foreign keys. -/
structure Ratings where
  comment : String
  score : Int
  user : Nat
  book : Nat
  created_at : Nat
  updated_at : Nat
  deriving Repr, DecidableEq

/-- Creating a `Ratings` row. The model declares `score = models.IntegerField()`
with no validators and no constraint, so creation performs no server-side check:
it never returns an error and stores the score as given. -/
def Ratings.create (comment : String) (score : Int) (user book : Nat) (now : Nat) :
    Except String Ratings :=
  Except.ok
    { comment := comment, score := score, user := user, book := book
      created_at := now, updated_at := now }

/-- Row type `Interest`: `done` flag, user/book foreign keys, audit pair. -/
structure Interest where
  done : Bool
  user : Nat
  book : Nat
  created_at : Nat
  updated_at : Nat
  deriving Repr, DecidableEq

/-- Creating an `Interest` row against the stored table. The model's `Meta`
declares only an ordering — no `unique_together` on `(user, book)` — so the
insert is never rejected and simply appends the new row. -/
def Interest.create (table : List Interest) (done : Bool) (user book : Nat) (now : Nat) :
    Except String (List Interest) :=
  Except.ok (table ++ [{ done := done, user := user, book := book
                         created_at := now, updated_at := now }])

/-! Lending ledger: `History`. -/

/-- Row type `History`: `lending_date` is `auto_now_add` (clock-set at creation),
`return_date` is the only nullable column (`blank=True, null=True`),
`returned` defaults to `False`. -/
structure History where
  lending_date : Nat
  return_date : Option Nat
  returned : Bool
  book : Nat
  user : Nat
  created_at : Nat
  updated_at : Nat
  deriving Repr, DecidableEq

/-- Creating a `History` row. The caller supplies only the foreign keys:
`lending_date` and `created_at` are `auto_now_add` (filled from the clock),
`returned` takes its declared default `False`, and `return_date`, the lone
nullable column, is left null. -/
def History.create (now : Nat) (book user : Nat) : History :=
  { lending_date := now, return_date := none, returned := false
    book := book, user := user, created_at := now, updated_at := now }

/-- Saving an update to a stored `History` row, setting `return_date` and
`returned`. Per the field declarations, `auto_now_add` columns
(`lending_date`, `created_at`) are excluded from updates, and the `auto_now`
column `updated_at` is refreshed from the clock. -/
def History.update (self : History) (rd : Option Nat) (ret : Bool) (now : Nat) : History :=
  { self with return_date := rd, returned := ret, updated_at := now }

/-- Method `History._expected_return_date` from `models.py`, the body of the
`exptdreturn_date` property, verbatim: it takes `datetime.date.today()`
(the `present_day` argument here) and returns `present_day + timedelta(weeks=2)`.
It reads no stored field of `self` — in particular not `lending_date`. -/
def History.expected_return_date (_self : History) (present_day : Nat) : Nat :=
  present_day + 14

/-- Modelled from the spec: the due date the specification prescribes for
`exptdreturn_date`, namely `lending_date + 14 days`, a pure function of the
stored lending date. Stated for comparison with the source's
`History.expected_return_date`. -/
def History.exptdreturn_date_spec (self : History) : Nat :=
  self.lending_date + 14

/-! Ordered listings.

Each model's `Meta.ordering` gives the sort key of its listing: `Author` and
`Category` by `name` ascending, `Book` by `title` ascending, `History` and
`Interest` by `-created_at` (creation timestamp descending). Listing a stored
table returns its rows sorted by that key. -/

def listAuthors (table : List Author) : List Author :=
  table.insertionSort (fun a b => a.name ≤ b.name)

def listCategories (table : List Category) : List Category :=
  table.insertionSort (fun a b => a.name ≤ b.name)

def listBooks (table : List Book) : List Book :=
  table.insertionSort (fun a b => a.title ≤ b.title)

def listHistory (table : List History) : List History :=
  table.insertionSort (fun a b => b.created_at ≤ a.created_at)

def listInterest (table : List Interest) : List Interest :=
  table.insertionSort (fun a b => b.created_at ≤ a.created_at)

instance : IsTotal Author (fun a b => a.name ≤ b.name) :=
  ⟨fun a b => le_total a.name b.name⟩

instance : IsTrans Author (fun a b => a.name ≤ b.name) :=
  ⟨fun _ _ _ => le_trans⟩

instance : IsTotal Category (fun a b => a.name ≤ b.name) :=
  ⟨fun a b => le_total a.name b.name⟩

instance : IsTrans Category (fun a b => a.name ≤ b.name) :=
  ⟨fun _ _ _ => le_trans⟩

instance : IsTotal Book (fun a b => a.title ≤ b.title) :=
  ⟨fun a b => le_total a.title b.title⟩

instance : IsTrans Book (fun a b => a.title ≤ b.title) :=
  ⟨fun _ _ _ => le_trans⟩

instance : IsTotal History (fun a b => b.created_at ≤ a.created_at) :=
  ⟨fun a b => le_total b.created_at a.created_at⟩

instance : IsTrans History (fun a b => b.created_at ≤ a.created_at) :=
  ⟨fun _ _ _ h h2 => le_trans h2 h⟩

instance : IsTotal Interest (fun a b => b.created_at ≤ a.created_at) :=
  ⟨fun a b => le_total b.created_at a.created_at⟩

instance : IsTrans Interest (fun a b => b.created_at ≤ a.created_at) :=
  ⟨fun _ _ _ h h2 => le_trans h2 h⟩

/-! Helper lemmas shared by the claim theorems. -/

theorem diffField_of_empty (s : String) : diffField s "" = s := by
  simp [diffField]

theorem diffField_of_ne (s t : String) (h1 : t ≠ "") (h2 : s ≠ t) : diffField s t = t := by
  simp [diffField, h1, h2]

theorem diffField_self (s t : String) (h : s = t) : diffField s t = s := by
  subst h
  simp [diffField]

theorem check_status_available_iff (b : Book) :
    b.check_status = "Available" ↔ 0 < b.quantity := by
  unfold Book.check_status
  by_cases h : b.quantity ≤ 0
  · rw [if_pos h]
    constructor
    · intro hc
      exact absurd hc (by decide)
    · intro hq
      omega
  · rw [if_neg h]
    constructor
    · intro _
      omega
    · intro _
      rfl

/-! Claim theorems. -/

/-- C1: the claim states `exptdreturn_date` is `lending_date + 14` and does not
depend on the read date. In the source, `History._expected_return_date` returns
`datetime.date.today() + timedelta(weeks=2)`, ignoring `lending_date`: for a
History created with `lending_date` = day 0 (e.g. 2024-01-01), a read 60 days
later yields day 74, not day 14 (2024-01-15) as the spec prescribes, and two
reads on different days disagree. -/
theorem history_exptdreturn_date_code_bug :
    (History.create 0 1 1).expected_return_date 60 = 74 ∧
    (History.create 0 1 1).exptdreturn_date_spec = 14 ∧
    (History.create 0 1 1).expected_return_date 60 ≠
      (History.create 0 1 1).expected_return_date 0 := by
  refine ⟨rfl, rfl, by decide⟩

/-- C2: `status` is `"Available"` iff `quantity > 0` (for every integer quantity,
zero and negatives included), `"Not Available"` otherwise, and it is a function
of `quantity` alone, recomputed on each access (it is a method, never a stored
column, in the embedding as in the source). -/
theorem book_status_available_iff_quantity_pos (b b2 : Book) :
    (b.check_status = "Available" ↔ b.quantity > 0) ∧
    (¬ b.quantity > 0 → b.check_status = "Not Available") ∧
    (b.quantity = b2.quantity → b.check_status = b2.check_status) := by
  refine ⟨check_status_available_iff b, ?_, ?_⟩
  · intro h
    unfold Book.check_status
    rw [if_pos (by omega)]
  · intro h
    unfold Book.check_status
    rw [h]

/-- Witness for C2 at a concrete book with quantity 0. -/
theorem book_status_zero_quantity_witness :
    (Book.mk "Dune" "" 0 "" "" "" [] 1 0 0).check_status = "Not Available" :=
  (book_status_available_iff_quantity_pos (Book.mk "Dune" "" 0 "" "" "" [] 1 0 0)
    (Book.mk "Dune" "" 0 "" "" "" [] 1 0 0)).2.1 (by decide)

/-- C3: in `UserProxy.check_diff`, each of the four recognized fields is kept
when the incoming value is empty, overwritten when the incoming value is
non-empty and differs from the stored one, and no other stored column
(represented by `password`) is modified. -/
theorem userProxy_check_diff_field_policy (u : UserProxy) (i : IdInfo) :
    (i.name = "" → (u.check_diff i).username = u.username) ∧
    (i.name ≠ "" → u.username ≠ i.name → (u.check_diff i).username = i.name) ∧
    (i.email = "" → (u.check_diff i).email = u.email) ∧
    (i.email ≠ "" → u.email ≠ i.email → (u.check_diff i).email = i.email) ∧
    (i.given_name = "" → (u.check_diff i).first_name = u.first_name) ∧
    (i.given_name ≠ "" → u.first_name ≠ i.given_name →
      (u.check_diff i).first_name = i.given_name) ∧
    (i.family_name = "" → (u.check_diff i).last_name = u.last_name) ∧
    (i.family_name ≠ "" → u.last_name ≠ i.family_name →
      (u.check_diff i).last_name = i.family_name) ∧
    (u.check_diff i).password = u.password := by
  refine ⟨?_, ?_, ?_, ?_, ?_, ?_, ?_, ?_, rfl⟩
  · intro h
    show diffField u.username i.name = u.username
    rw [h, diffField_of_empty]
  · intro h1 h2
    exact diffField_of_ne u.username i.name h1 h2
  · intro h
    show diffField u.email i.email = u.email
    rw [h, diffField_of_empty]
  · intro h1 h2
    exact diffField_of_ne u.email i.email h1 h2
  · intro h
    show diffField u.first_name i.given_name = u.first_name
    rw [h, diffField_of_empty]
  · intro h1 h2
    exact diffField_of_ne u.first_name i.given_name h1 h2
  · intro h
    show diffField u.last_name i.family_name = u.last_name
    rw [h, diffField_of_empty]
  · intro h1 h2
    exact diffField_of_ne u.last_name i.family_name h1 h2

/-- Witness for C3 at the spec's scenario: stored
`(handle "old", email "old@x.com", first "Old", last "Name")`, incoming
`(display_name "", email "a@b.com", given_name "Amir", family_name "")`:
handle and family name unchanged, email and given name updated, other
columns untouched. -/
theorem userProxy_check_diff_scenario_witness :
    ((UserProxy.mk "old" "old@x.com" "Old" "Name" "pw").check_diff
        (IdInfo.mk "" "a@b.com" "Amir" "")).username = "old" ∧
    ((UserProxy.mk "old" "old@x.com" "Old" "Name" "pw").check_diff
        (IdInfo.mk "" "a@b.com" "Amir" "")).email = "a@b.com" ∧
    ((UserProxy.mk "old" "old@x.com" "Old" "Name" "pw").check_diff
        (IdInfo.mk "" "a@b.com" "Amir" "")).first_name = "Amir" ∧
    ((UserProxy.mk "old" "old@x.com" "Old" "Name" "pw").check_diff
        (IdInfo.mk "" "a@b.com" "Amir" "")).last_name = "Name" ∧
    ((UserProxy.mk "old" "old@x.com" "Old" "Name" "pw").check_diff
        (IdInfo.mk "" "a@b.com" "Amir" "")).password = "pw" :=
  have h := userProxy_check_diff_field_policy
    (UserProxy.mk "old" "old@x.com" "Old" "Name" "pw") (IdInfo.mk "" "a@b.com" "Amir" "")
  ⟨h.1 rfl, h.2.2.2.1 (by decide) (by decide), h.2.2.2.2.2.1 (by decide) (by decide),
    h.2.2.2.2.2.2.1 rfl, h.2.2.2.2.2.2.2.2⟩

/-- C4: when every incoming recognized value equals the stored one,
`UserProxy.check_diff` returns the record unchanged — the underlying Django
auth user has no `auto_now` column, so the unconditional `save()` writes back
exactly the same row. -/
theorem userProxy_check_diff_noop_when_equal (u : UserProxy) (i : IdInfo)
    (h1 : i.name = u.username) (h2 : i.email = u.email)
    (h3 : i.given_name = u.first_name) (h4 : i.family_name = u.last_name) :
    u.check_diff i = u := by
  cases u
  simp only [UserProxy.check_diff]
  simp_all [diffField_self]

/-- Witness for C4 at a concrete record whose incoming payload repeats every
stored value. -/
theorem userProxy_check_diff_noop_witness :
    (UserProxy.mk "old" "old@x.com" "Old" "Name" "pw").check_diff
        (IdInfo.mk "old" "old@x.com" "Old" "Name") =
      UserProxy.mk "old" "old@x.com" "Old" "Name" "pw" :=
  userProxy_check_diff_noop_when_equal _ _ rfl rfl rfl rfl

/-- C5: `GoogleUser.check_diff` applies the diff-and-update policy to
`appuser_picture` alone: an empty or equal incoming picture leaves the row
unchanged, a non-empty differing one overwrites the picture, and `google_id`
and `app_user` are unchanged in every case. -/
theorem googleUser_check_diff_picture_policy (g : GoogleUser) (pic : String) :
    (pic = "" → g.check_diff pic = g) ∧
    (g.appuser_picture = pic → g.check_diff pic = g) ∧
    (pic ≠ "" → g.appuser_picture ≠ pic → (g.check_diff pic).appuser_picture = pic) ∧
    (g.check_diff pic).google_id = g.google_id ∧
    (g.check_diff pic).app_user = g.app_user := by
  refine ⟨?_, ?_, ?_, rfl, rfl⟩
  · intro h
    cases g
    simp only [GoogleUser.check_diff]
    rw [h, diffField_of_empty]
  · intro h
    cases g
    simp only [GoogleUser.check_diff]
    rw [diffField_self _ _ h]
  · intro h1 h2
    exact diffField_of_ne g.appuser_picture pic h1 h2

/-- Witness for C5 at a concrete profile with a non-empty, differing incoming
picture: the picture is overwritten and the external id is untouched. -/
theorem googleUser_check_diff_witness :
    ((GoogleUser.mk "gid" 7 "oldpic").check_diff "newpic").appuser_picture = "newpic" ∧
    ((GoogleUser.mk "gid" 7 "oldpic").check_diff "newpic").google_id = "gid" :=
  have h := googleUser_check_diff_picture_policy (GoogleUser.mk "gid" 7 "oldpic") "newpic"
  ⟨h.2.2.1 (by decide) (by decide), h.2.2.2.1⟩

/-- C6: listing `Author` and `Category` tables returns the rows sorted
ascending by `name`, listing `Book` sorted ascending by `title`, and listing
`History` and `Interest` sorted descending by `created_at` (newest first);
each listing is a permutation of the stored table. -/
theorem listing_order_contract (as : List Author) (cs : List Category)
    (bs : List Book) (hs : List History) (its : List Interest) :
    (List.Sorted (fun a b => a.name ≤ b.name) (listAuthors as) ∧ (listAuthors as).Perm as) ∧
    (List.Sorted (fun a b => a.name ≤ b.name) (listCategories cs) ∧
      (listCategories cs).Perm cs) ∧
    (List.Sorted (fun a b => a.title ≤ b.title) (listBooks bs) ∧ (listBooks bs).Perm bs) ∧
    (List.Sorted (fun a b => b.created_at ≤ a.created_at) (listHistory hs) ∧
      (listHistory hs).Perm hs) ∧
    (List.Sorted (fun a b => b.created_at ≤ a.created_at) (listInterest its) ∧
      (listInterest its).Perm its) :=
  ⟨⟨List.sorted_insertionSort _ as, List.perm_insertionSort _ as⟩,
    ⟨List.sorted_insertionSort _ cs, List.perm_insertionSort _ cs⟩,
    ⟨List.sorted_insertionSort _ bs, List.perm_insertionSort _ bs⟩,
    ⟨List.sorted_insertionSort _ hs, List.perm_insertionSort _ hs⟩,
    ⟨List.sorted_insertionSort _ its, List.perm_insertionSort _ its⟩⟩

/-- C7: creating a `Ratings` row with any integer score — zero, negative, or
arbitrarily large — succeeds (no validation error) and stores the score
unchanged. -/
theorem rating_create_accepts_any_score (c : String) (score : Int) (u b n : Nat) :
    ∃ r, Ratings.create c score u b n = Except.ok r ∧ r.score = score :=
  ⟨_, rfl, rfl⟩

/-- C8: creating an `Interest` row for a `(user, book)` pair succeeds even when
a row for the same pair is already stored — no uniqueness constraint rejects
the write — and afterwards at least two rows for the pair coexist. -/
theorem interest_create_allows_duplicates (table : List Interest) (d : Bool)
    (u b n : Nat) (hdup : ∃ i ∈ table, i.user = u ∧ i.book = b) :
    ∃ t2, Interest.create table d u b n = Except.ok t2 ∧
      2 ≤ t2.countP (fun i => i.user == u && i.book == b) := by
  refine ⟨_, rfl, ?_⟩
  rw [List.countP_append]
  have h1 : 0 < table.countP (fun i => i.user == u && i.book == b) := by
    rw [List.countP_pos_iff]
    obtain ⟨i, hi, hu, hb⟩ := hdup
    exact ⟨i, hi, by simp [hu, hb]⟩
  have h2 : List.countP (fun i : Interest => i.user == u && i.book == b)
      [{ done := d, user := u, book := b, created_at := n, updated_at := n }] = 1 := by
    simp [List.countP_cons]
  omega

/-- Witness for C8: with one `(user 1, book 2)` row already stored, a second
creation for the same pair succeeds and two rows for the pair exist. -/
theorem interest_create_duplicates_witness :
    ∃ t2, Interest.create [Interest.mk false 1 2 0 0] true 1 2 5 = Except.ok t2 ∧
      2 ≤ t2.countP (fun i => i.user == 1 && i.book == 2) :=
  interest_create_allows_duplicates [Interest.mk false 1 2 0 0] true 1 2 5
    ⟨Interest.mk false 1 2 0 0, by decide, rfl, rfl⟩

/-- C9: `lending_date` is filled from the clock at creation — `History.create`
takes no caller-supplied date, only the foreign keys — and no subsequent update
changes it: `History.update`, which writes every editable column, leaves
`lending_date` (an `auto_now_add` column) as stored. -/
theorem history_lending_date_create_immutable (now book user : Nat) :
    (History.create now book user).lending_date = now ∧
    ∀ (h : History) (rd : Option Nat) (ret : Bool) (n2 : Nat),
      (h.update rd ret n2).lending_date = h.lending_date :=
  ⟨rfl, fun _ _ _ _ => rfl⟩

/-- C10: a freshly created `History` row has `returned = false` (the declared
default) and `return_date = none` (the only nullable column of the model — in
the embedding the only `Option` field); updates set the two independently:
each comes out exactly as passed, regardless of the other. -/
theorem history_defaults_and_independence (now book user : Nat) :
    (History.create now book user).returned = false ∧
    (History.create now book user).return_date = none ∧
    ∀ (h : History) (rd : Option Nat) (ret : Bool) (n2 : Nat),
      (h.update rd ret n2).return_date = rd ∧ (h.update rd ret n2).returned = ret :=
  ⟨rfl, rfl, fun _ _ _ _ => ⟨rfl, rfl⟩⟩

end Reactlib
